import Mathlib

/-!
# Verification of the PureChain block-validation core

Shallow embedding of `core/block_validator.go` (BlockValidator.ValidateBody,
BlockValidator.ValidateState, CalcGasLimit) and of the remote-work API in
`consensus/inihash/api.go` (GetWork, SubmitWork, SubmitHashrate), together
with theorems settling the specification's claims about them.
-/

namespace PureChain

/-! ## Machine arithmetic: Go `uint64` modelled as `Nat` with explicit wrap -/

/-- `2 ^ 64`, the modulus of Go `uint64` arithmetic. -/
def W : Nat := 18446744073709551616

theorem W_eq_two_pow : W = 2 ^ 64 := by norm_num [W]

/-- Go `uint64` addition: wraps modulo `2 ^ 64`. -/
def add64 (a b : Nat) : Nat := (a + b) % W

/-- Go `uint64` subtraction: wraps modulo `2 ^ 64`. -/
def sub64 (a b : Nat) : Nat := (a + (W - b % W)) % W

/-! ## Gas-limit calculation (`CalcGasLimit` in core/block_validator.go)

The two protocol constants live in the `params` package, which is not part
of the validation core's sources. Modelled from the spec: the spec's
concrete vector fixes `BOUND_DIVISOR = 1024`, and `MinGasLimit` is the
inherited upstream protocol parameter `5000`. -/

/-- Modelled from the spec: `params.GasLimitBoundDivisor`, the bound divisor
of the gas limit, fixed to 1024 by the spec's concrete test vector. -/
def GasLimitBoundDivisor : Nat := 1024

/-- Modelled from the spec: `params.MinGasLimit`, the minimum the gas limit
may ever be; the upstream protocol value 5000 inherited by this chain. -/
def MinGasLimit : Nat := 5000

/-- `contrib := (parent.GasUsed() + parent.GasUsed()/2) / params.GasLimitBoundDivisor`,
with the `uint64` sum wrapping before the division. -/
def gasContrib (parentGasUsed : Nat) : Nat :=
  add64 parentGasUsed (parentGasUsed / 2) / GasLimitBoundDivisor

/-- `decay := parent.GasLimit()/params.GasLimitBoundDivisor - 1` in `uint64`
arithmetic (wraps to `2^64 - 1` when the quotient is zero). -/
def gasDecay (parentGasLimit : Nat) : Nat :=
  sub64 (parentGasLimit / GasLimitBoundDivisor) 1

/-- `limit := parent.GasLimit() - decay + contrib`, then floored at
`params.MinGasLimit` — the value of the local variable `limit` in
`CalcGasLimit` just before the floor/ceil honing branches. -/
def gasLimitStep3 (parentGasUsed parentGasLimit : Nat) : Nat :=
  let limit := add64 (sub64 parentGasLimit (gasDecay parentGasLimit)) (gasContrib parentGasUsed)
  if limit < MinGasLimit then MinGasLimit else limit

/-- `CalcGasLimit(parent, gasFloor, gasCeil)` from core/block_validator.go,
with the parent block represented by its `GasUsed()` and `GasLimit()`. -/
def CalcGasLimit (parentGasUsed parentGasLimit gasFloor gasCeil : Nat) : Nat :=
  let decay := gasDecay parentGasLimit
  let limit := gasLimitStep3 parentGasUsed parentGasLimit
  if limit < gasFloor then
    let adjusted := add64 parentGasLimit decay
    if adjusted > gasFloor then gasFloor else adjusted
  else if limit > gasCeil then
    let adjusted := sub64 parentGasLimit decay
    if adjusted < gasCeil then gasCeil else adjusted
  else limit

/-- Modelled from the spec: the six-step algorithm of §4.2, written the way
the spec words it (clamps expressed as `min`/`max`), to be compared with
`CalcGasLimit` as translated from the source. All arithmetic is truncating
unsigned 64-bit, as the spec requires. -/
def specCalcGasLimit (parentGasUsed parentGasLimit floor ceiling : Nat) : Nat :=
  let contribution := add64 parentGasUsed (parentGasUsed / 2) / GasLimitBoundDivisor
  let decay := sub64 (parentGasLimit / GasLimitBoundDivisor) 1
  let limit := max (add64 (sub64 parentGasLimit decay) contribution) MinGasLimit
  if limit < floor then min (add64 parentGasLimit decay) floor
  else if limit > ceiling then max (sub64 parentGasLimit decay) ceiling
  else limit

theorem ite_lt_eq_max (x m : Nat) : (if x < m then m else x) = max x m := by
  rcases Nat.lt_or_ge x m with h | h
  · simp [h, Nat.max_eq_right (Nat.le_of_lt h)]
  · simp [Nat.not_lt.mpr h, Nat.max_eq_left h]

theorem ite_gt_eq_min (x f : Nat) : (if x > f then f else x) = min x f := by
  rcases Nat.lt_or_ge f x with h | h
  · simp [h, Nat.min_eq_right (Nat.le_of_lt h)]
  · simp [Nat.not_lt.mpr h, Nat.min_eq_left h]

/-- Claim C2: for every input, `CalcGasLimit` returns exactly the value of
the spec's six-step algorithm — contribution, decay, the `MinGasLimit`-floored
limit, then the hone-toward-floor / hone-toward-ceiling clamps — in wrapping
unsigned 64-bit arithmetic, in the spec's operation order. -/
theorem calcGasLimit_eq_spec (parentGasUsed parentGasLimit gasFloor gasCeil : Nat) :
    CalcGasLimit parentGasUsed parentGasLimit gasFloor gasCeil =
      specCalcGasLimit parentGasUsed parentGasLimit gasFloor gasCeil := by
  unfold CalcGasLimit specCalcGasLimit gasLimitStep3 gasContrib gasDecay
  simp only [ite_lt_eq_max, ite_gt_eq_min]

/-- Claim C7: on the spec's concrete vector (`parentGasLimit = 10000000`,
`parentGasUsed = 9000000`, floor `8000000`, ceiling `12000000`) the code
computes contribution 13183, decay 9764, step-3 limit 10003419, and returns
that limit unchanged by the floor and ceiling branches. -/
theorem calcGasLimit_concrete_vector :
    gasContrib 9000000 = 13183 ∧
    gasDecay 10000000 = 9764 ∧
    gasLimitStep3 9000000 10000000 = 10003419 ∧
    CalcGasLimit 9000000 10000000 8000000 12000000 = 10003419 := by
  refine ⟨by decide, by decide, by decide, by decide⟩

theorem gasLimitStep3_ge_min (u L : Nat) : MinGasLimit ≤ gasLimitStep3 u L := by
  simp only [gasLimitStep3]
  split <;> omega

theorem add64_le (a b : Nat) : add64 a b ≤ a + b := Nat.mod_le _ _

theorem sub64_of_le (a b : Nat) (hb : b ≤ a) (ha : a < W) : sub64 a b = a - b := by
  have hbW : b % W = b := Nat.mod_eq_of_lt (lt_of_le_of_lt hb ha)
  unfold sub64
  rw [hbW]
  have h1 : a + (W - b) = W + (a - b) := by
    unfold W at *
    omega
  rw [h1, Nat.add_mod_left]
  exact Nat.mod_eq_of_lt (by unfold W at *; omega)

theorem sub64_decay_le (L : Nat) (hL : L < W) :
    sub64 L (gasDecay L) ≤ L + gasDecay L := by
  by_cases h1 : L < GasLimitBoundDivisor
  · have hd : gasDecay L = W - 1 := by
      unfold gasDecay sub64 GasLimitBoundDivisor W at *
      omega
    rw [hd]
    unfold sub64 W at *
    omega
  · have hd : gasDecay L = L / GasLimitBoundDivisor - 1 := by
      unfold gasDecay sub64 GasLimitBoundDivisor W at *
      omega
    have hdL : L / GasLimitBoundDivisor - 1 ≤ L := by
      unfold GasLimitBoundDivisor
      omega
    rw [hd, sub64_of_le L (L / GasLimitBoundDivisor - 1) hdL hL]
    omega

theorem calcGasLimit_of_inrange (u L f c : Nat)
    (h1 : f ≤ gasLimitStep3 u L) (h2 : gasLimitStep3 u L ≤ c) :
    CalcGasLimit u L f c = gasLimitStep3 u L := by
  simp only [CalcGasLimit]
  rw [if_neg (Nat.not_lt.mpr h1), if_neg (Nat.not_lt.mpr h2)]

/-- Claim C4 counterexample: at `parentGasUsed = 0`, `parentGasLimit = 2000`,
`floor = 6000`, `ceiling = 12000000` the code returns 2000, strictly below
`MinGasLimit`, so the claimed interval
`[MinGasLimit, max(ceiling, parentGasLimit + decay)]` does not contain the
result. -/
theorem calcGasLimit_bounds_counterexample :
    CalcGasLimit 0 2000 6000 12000000 = 2000 ∧
    ¬ (MinGasLimit ≤ CalcGasLimit 0 2000 6000 12000000 ∧
       CalcGasLimit 0 2000 6000 12000000 ≤ max 12000000 (2000 + gasDecay 2000)) :=
  ⟨by decide, by decide⟩

/-- Claim C4 (amended): the upper half of the claimed interval always holds —
the result is at most `max(ceiling, parentGasLimit + decay)` — but the
`MinGasLimit` lower bound is only guaranteed when the step-3 limit already
lies within `[floor, ceiling]`: the hone-toward-floor and hone-toward-ceiling
branches recompute the limit from `parentGasLimit ± decay` without
re-applying the `MinGasLimit` floor, and can return a value below it. -/
theorem calcGasLimit_bounds (u L f c : Nat) (hL : L < W) :
    CalcGasLimit u L f c ≤ max c (L + gasDecay L) ∧
    (f ≤ gasLimitStep3 u L → gasLimitStep3 u L ≤ c →
      MinGasLimit ≤ CalcGasLimit u L f c) := by
  constructor
  · rw [le_max_iff]
    have hadd : add64 L (gasDecay L) ≤ L + gasDecay L := add64_le L (gasDecay L)
    have hsub : sub64 L (gasDecay L) ≤ L + gasDecay L := sub64_decay_le L hL
    simp only [CalcGasLimit]
    split_ifs <;> omega
  · intro h1 h2
    rw [calcGasLimit_of_inrange u L f c h1 h2]
    exact gasLimitStep3_ge_min u L

/-- Witness for C4 (amended) at the spec's concrete vector: the hypotheses
hold there and both bounds follow. -/
theorem calcGasLimit_bounds_witness :
    CalcGasLimit 9000000 10000000 8000000 12000000 ≤
      max 12000000 (10000000 + gasDecay 10000000) ∧
    MinGasLimit ≤ CalcGasLimit 9000000 10000000 8000000 12000000 := by
  have h := calcGasLimit_bounds 9000000 10000000 8000000 12000000 (by decide)
  exact ⟨h.1, h.2 (by decide) (by decide)⟩

/-- Claim C9: when `parentGasLimit < GasLimitBoundDivisor`, the unsigned
`decay` computation wraps to `2^64 - 1`, and the subsequent
`parentGasLimit - decay + contribution` wraps modulo `2^64` to
`parentGasLimit + contribution + 1 (mod 2^64)`, so the step-3 limit in this
regime is fixed by modular arithmetic, not by a bounded-rate adjustment. -/
theorem calcGasLimit_decay_wraps (u L : Nat) (hL : L < GasLimitBoundDivisor) :
    gasDecay L = W - 1 ∧
    add64 (sub64 L (gasDecay L)) (gasContrib u) = (L + gasContrib u + 1) % W := by
  unfold gasDecay gasContrib add64 sub64 GasLimitBoundDivisor W at *
  constructor
  · omega
  · omega

/-- Witness for C9 at `parentGasUsed = 0`, `parentGasLimit = 5`. -/
theorem calcGasLimit_decay_wraps_witness :
    gasDecay 5 = W - 1 ∧
    add64 (sub64 5 (gasDecay 5)) (gasContrib 0) = (5 + gasContrib 0 + 1) % W :=
  calcGasLimit_decay_wraps 0 5 (by decide)

/-! ## Block validation (`BlockValidator` in core/block_validator.go)

Hashes are abstracted as `Nat`; the external collaborators — block hashing,
Merkle-root derivation, bloom creation, the chain view and the consensus
engine — are fields of an environment record, pure during one validation
call. The concurrent fail-fast task set is modelled by the list of results
a call can return: any non-nil task result can arrive first on the channel,
and nil is returned only when every task returned nil. -/

/-- The header fields `ValidateBody`/`ValidateState` read. -/
structure Header where
  number : Nat
  parentHash : Nat
  uncleHash : Nat
  txHash : Nat
  receiptHash : Nat
  root : Nat
  bloom : Nat
  gasUsed : Nat
deriving DecidableEq

/-- A block: header plus ordered transactions and uncle headers
(transactions abstracted to their identities). -/
structure Block where
  header : Header
  transactions : List Nat
  uncles : List Header
deriving DecidableEq

/-- The collaborators `ValidateBody` consumes: hashing, the chain view and
the consensus engine (engine errors are opaque, coded as `Nat`). -/
structure ChainEnv where
  blockHash : Block → Nat
  calcUncleHash : List Header → Nat
  deriveSha : List Nat → Nat
  hasBlockAndState : Nat → Nat → Bool
  hasBlock : Nat → Nat → Bool
  verifyUncles : Block → Option Nat

/-- The errors `ValidateBody` can return. -/
inductive VError where
  | knownBlock : VError
  | engineError (e : Nat) : VError
  | uncleRootMismatch (hv wv : Nat) : VError
  | txRootMismatch (hv wv : Nat) : VError
  | unknownAncestor : VError
  | prunedAncestor : VError
deriving DecidableEq

/-- `block.NumberU64() - 1` in `uint64` arithmetic. -/
def parentNumber (b : Block) : Nat := sub64 b.header.number 1

/-- The sequential part of `ValidateBody` before the goroutines are spawned:
the known-block short-circuit, `engine.VerifyUncles`, and the uncle-root
comparison, in source order. -/
def bodyPreCheck (env : ChainEnv) (b : Block) : Option VError :=
  if env.hasBlockAndState (env.blockHash b) b.header.number then some .knownBlock
  else
    match env.verifyUncles b with
    | some e => some (.engineError e)
    | none =>
      if env.calcUncleHash b.uncles ≠ b.header.uncleHash then
        some (.uncleRootMismatch (env.calcUncleHash b.uncles) b.header.uncleHash)
      else none

/-- First concurrent task: the repeated known-block check. -/
def bodyCheckKnown (env : ChainEnv) (b : Block) : Option VError :=
  if env.hasBlockAndState (env.blockHash b) b.header.number then some .knownBlock else none

/-- Second concurrent task: the transaction-root comparison. -/
def bodyCheckTxRoot (env : ChainEnv) (b : Block) : Option VError :=
  if env.deriveSha b.transactions ≠ b.header.txHash then
    some (.txRootMismatch (env.deriveSha b.transactions) b.header.txHash)
  else none

/-- Third concurrent task: ancestor availability. -/
def bodyCheckAncestor (env : ChainEnv) (b : Block) : Option VError :=
  if ¬ env.hasBlockAndState b.header.parentHash (parentNumber b) then
    if ¬ env.hasBlock b.header.parentHash (parentNumber b) then some .unknownAncestor
    else some .prunedAncestor
  else none

/-- The `validateFuns` slice of `ValidateBody`. -/
def bodyTasks (env : ChainEnv) (b : Block) : List (Option VError) :=
  [bodyCheckKnown env b, bodyCheckTxRoot env b, bodyCheckAncestor env b]

/-- The results a concurrent fail-fast task set can deliver: a sequential
pre-check error is returned as-is; otherwise any failing task can be the
first received on the result channel, and nil is returned only when all
tasks passed. -/
def raceOutcomes {α : Type} [DecidableEq α] (pre : Option α) (tasks : List (Option α)) :
    List (Option α) :=
  match pre with
  | some e => [some e]
  | none =>
    let failures := tasks.filterMap (fun r => r)
    if failures = [] then [none] else failures.map some

/-- The possible results of `ValidateBody` (`none` = success). -/
def validateBodyOutcomes (env : ChainEnv) (b : Block) : List (Option VError) :=
  raceOutcomes (bodyPreCheck env b) (bodyTasks env b)

theorem mem_filterMap_some {α : Type} (tasks : List (Option α)) (e : α) :
    e ∈ tasks.filterMap (fun r => r) ↔ some e ∈ tasks := by
  rw [List.mem_filterMap]
  constructor
  · rintro ⟨r, hr, hre⟩
    cases hre
    exact hr
  · intro h
    exact ⟨some e, h, rfl⟩

theorem some_mem_raceOutcomes {α : Type} [DecidableEq α] (pre : Option α)
    (tasks : List (Option α)) (e : α) :
    some e ∈ raceOutcomes pre tasks ↔ pre = some e ∨ (pre = none ∧ some e ∈ tasks) := by
  cases pre with
  | some p =>
    show some e ∈ [some p] ↔ _
    simp only [List.mem_singleton]
    constructor
    · intro h
      exact Or.inl h.symm
    · rintro (h | ⟨h, -⟩)
      · exact h.symm
      · exact Option.noConfusion h
  | none =>
    show some e ∈ (if tasks.filterMap (fun r => r) = [] then [none]
        else (tasks.filterMap (fun r => r)).map some) ↔ _
    by_cases hf : tasks.filterMap (fun r => r) = []
    · rw [if_pos hf]
      simp only [List.mem_singleton]
      constructor
      · intro h
        exact Option.noConfusion h
      · rintro (h | ⟨-, h⟩)
        · exact Option.noConfusion h
        · have h2 := (mem_filterMap_some tasks e).mpr h
          rw [hf] at h2
          exact absurd h2 (List.not_mem_nil e)
    · rw [if_neg hf]
      constructor
      · intro h
        obtain ⟨a, ha, hae⟩ := List.mem_map.mp h
        have hae2 : a = e := Option.some.inj hae
        subst hae2
        exact Or.inr ⟨rfl, (mem_filterMap_some tasks a).mp ha⟩
      · rintro (h | ⟨-, h⟩)
        · exact Option.noConfusion h
        · exact List.mem_map.mpr ⟨e, (mem_filterMap_some tasks e).mpr h, rfl⟩

theorem none_mem_raceOutcomes {α : Type} [DecidableEq α] (pre : Option α)
    (tasks : List (Option α)) :
    none ∈ raceOutcomes pre tasks ↔ pre = none ∧ ∀ r ∈ tasks, r = none := by
  cases pre with
  | some p =>
    show (none : Option α) ∈ [some p] ↔ _
    simp only [List.mem_singleton]
    constructor
    · intro h
      exact Option.noConfusion h
    · rintro ⟨h, -⟩
      exact Option.noConfusion h
  | none =>
    show (none : Option α) ∈ (if tasks.filterMap (fun r => r) = [] then [none]
        else (tasks.filterMap (fun r => r)).map some) ↔ _
    by_cases hf : tasks.filterMap (fun r => r) = []
    · rw [if_pos hf]
      constructor
      · intro _
        refine ⟨rfl, ?_⟩
        intro r hr
        cases r with
        | none => rfl
        | some a =>
          have h2 := (mem_filterMap_some tasks a).mpr hr
          rw [hf] at h2
          exact absurd h2 (List.not_mem_nil a)
      · intro _
        exact List.mem_singleton.mpr rfl
    · rw [if_neg hf]
      constructor
      · intro h
        obtain ⟨a, -, ha⟩ := List.mem_map.mp h
        exact Option.noConfusion ha
      · rintro ⟨-, h⟩
        exfalso
        apply hf
        rw [List.filterMap_eq_nil_iff]
        intro r hr
        rw [h r hr]

theorem bodyPreCheck_eq_none (env : ChainEnv) (b : Block) :
    bodyPreCheck env b = none ↔
      env.hasBlockAndState (env.blockHash b) b.header.number = false ∧
      env.verifyUncles b = none ∧
      env.calcUncleHash b.uncles = b.header.uncleHash := by
  unfold bodyPreCheck
  by_cases hk : env.hasBlockAndState (env.blockHash b) b.header.number = true
  · simp [hk]
  · cases hvu : env.verifyUncles b with
    | some e => simp [hk, hvu]
    | none =>
      by_cases huh : env.calcUncleHash b.uncles = b.header.uncleHash <;>
        simp [hk, hvu, huh, Bool.not_eq_true] at *

/-- The violated condition each `ValidateBody` error reports, as the spec
pairs them. -/
def bodyErrCause (env : ChainEnv) (b : Block) : VError → Prop
  | .knownBlock => env.hasBlockAndState (env.blockHash b) b.header.number = true
  | .engineError e => env.verifyUncles b = some e
  | .uncleRootMismatch hv wv =>
      env.calcUncleHash b.uncles = hv ∧ b.header.uncleHash = wv ∧ hv ≠ wv
  | .txRootMismatch hv wv =>
      env.deriveSha b.transactions = hv ∧ b.header.txHash = wv ∧ hv ≠ wv
  | .unknownAncestor =>
      env.hasBlock b.header.parentHash (parentNumber b) = false ∧
      env.hasBlockAndState b.header.parentHash (parentNumber b) = false
  | .prunedAncestor =>
      env.hasBlock b.header.parentHash (parentNumber b) = true ∧
      env.hasBlockAndState b.header.parentHash (parentNumber b) = false

theorem bodyPreCheck_cause (env : ChainEnv) (b : Block) (e : VError)
    (h : bodyPreCheck env b = some e) : bodyErrCause env b e := by
  unfold bodyPreCheck at h
  by_cases hk : env.hasBlockAndState (env.blockHash b) b.header.number = true
  · rw [if_pos hk] at h
    cases Option.some.inj h
    exact hk
  · rw [if_neg hk] at h
    cases hvu : env.verifyUncles b with
    | some u =>
      rw [hvu] at h
      cases Option.some.inj h
      exact hvu
    | none =>
      rw [hvu] at h
      by_cases huh : env.calcUncleHash b.uncles = b.header.uncleHash
      · rw [if_neg (by simpa using huh)] at h
        exact Option.noConfusion h
      · rw [if_pos (by simpa using huh)] at h
        cases Option.some.inj h
        exact ⟨rfl, rfl, huh⟩

theorem bodyCheckKnown_eq_none (env : ChainEnv) (b : Block) :
    bodyCheckKnown env b = none ↔
      env.hasBlockAndState (env.blockHash b) b.header.number = false := by
  unfold bodyCheckKnown
  by_cases hk : env.hasBlockAndState (env.blockHash b) b.header.number = true <;>
    simp [hk, Bool.not_eq_true] at *

theorem bodyCheckKnown_cause (env : ChainEnv) (b : Block) (e : VError)
    (h : bodyCheckKnown env b = some e) : bodyErrCause env b e := by
  unfold bodyCheckKnown at h
  by_cases hk : env.hasBlockAndState (env.blockHash b) b.header.number = true
  · rw [if_pos hk] at h
    cases Option.some.inj h
    exact hk
  · rw [if_neg hk] at h
    exact Option.noConfusion h

theorem bodyCheckTxRoot_eq_none (env : ChainEnv) (b : Block) :
    bodyCheckTxRoot env b = none ↔ env.deriveSha b.transactions = b.header.txHash := by
  unfold bodyCheckTxRoot
  by_cases htx : env.deriveSha b.transactions = b.header.txHash <;> simp [htx]

theorem bodyCheckTxRoot_cause (env : ChainEnv) (b : Block) (e : VError)
    (h : bodyCheckTxRoot env b = some e) : bodyErrCause env b e := by
  unfold bodyCheckTxRoot at h
  by_cases htx : env.deriveSha b.transactions = b.header.txHash
  · rw [if_neg (by simpa using htx)] at h
    exact Option.noConfusion h
  · rw [if_pos (by simpa using htx)] at h
    cases Option.some.inj h
    exact ⟨rfl, rfl, htx⟩

theorem bodyCheckAncestor_eq_none (env : ChainEnv) (b : Block) :
    bodyCheckAncestor env b = none ↔
      env.hasBlockAndState b.header.parentHash (parentNumber b) = true := by
  unfold bodyCheckAncestor
  by_cases hps : env.hasBlockAndState b.header.parentHash (parentNumber b) = true
  · simp [hps]
  · by_cases hpb : env.hasBlock b.header.parentHash (parentNumber b) = true <;>
      simp [hps, hpb]

theorem bodyCheckAncestor_cause (env : ChainEnv) (b : Block) (e : VError)
    (h : bodyCheckAncestor env b = some e) : bodyErrCause env b e := by
  unfold bodyCheckAncestor at h
  by_cases hps : env.hasBlockAndState b.header.parentHash (parentNumber b) = true
  · rw [if_neg (by simpa using hps)] at h
    exact Option.noConfusion h
  · rw [if_pos (by simpa using hps)] at h
    by_cases hpb : env.hasBlock b.header.parentHash (parentNumber b) = true
    · rw [if_neg (by simpa using hpb)] at h
      cases Option.some.inj h
      exact ⟨hpb, by simpa using hps⟩
    · rw [if_pos (by simpa using hpb)] at h
      cases Option.some.inj h
      exact ⟨by simpa using hpb, by simpa using hps⟩

theorem validateBody_none_iff (env : ChainEnv) (b : Block) :
    none ∈ validateBodyOutcomes env b ↔
      env.calcUncleHash b.uncles = b.header.uncleHash ∧
      env.deriveSha b.transactions = b.header.txHash ∧
      env.hasBlockAndState b.header.parentHash (parentNumber b) = true ∧
      env.verifyUncles b = none ∧
      env.hasBlockAndState (env.blockHash b) b.header.number = false := by
  rw [validateBodyOutcomes, none_mem_raceOutcomes, bodyPreCheck_eq_none]
  constructor
  · rintro ⟨⟨hk, hvu, huh⟩, hall⟩
    refine ⟨huh, ?_, ?_, hvu, hk⟩
    · exact (bodyCheckTxRoot_eq_none env b).mp (hall _ (by simp [bodyTasks]))
    · exact (bodyCheckAncestor_eq_none env b).mp (hall _ (by simp [bodyTasks]))
  · rintro ⟨huh, htx, hps, hvu, hk⟩
    refine ⟨⟨hk, hvu, huh⟩, ?_⟩
    intro r hr
    simp only [bodyTasks, List.mem_cons, List.not_mem_nil, or_false] at hr
    rcases hr with rfl | rfl | rfl
    · exact (bodyCheckKnown_eq_none env b).mpr hk
    · exact (bodyCheckTxRoot_eq_none env b).mpr htx
    · exact (bodyCheckAncestor_eq_none env b).mpr hps

theorem validateBody_some_cause (env : ChainEnv) (b : Block) (e : VError)
    (he : some e ∈ validateBodyOutcomes env b) : bodyErrCause env b e := by
  rw [validateBodyOutcomes, some_mem_raceOutcomes] at he
  rcases he with hpre | ⟨-, htask⟩
  · exact bodyPreCheck_cause env b e hpre
  · simp only [bodyTasks, List.mem_cons, List.not_mem_nil, or_false] at htask
    rcases htask with h | h | h
    · exact bodyCheckKnown_cause env b e h.symm
    · exact bodyCheckTxRoot_cause env b e h.symm
    · exact bodyCheckAncestor_cause env b e h.symm

/-- Claim C1: `ValidateBody` succeeds (can return nil) exactly when the
recomputed uncle root equals the header's uncle root, the recomputed
transaction root equals the header's tx root, the parent is known with
state, the engine's uncle verification passes, and the block is not already
known with state; and every error it can return corresponds to a violated
condition. -/
theorem validateBody_spec (env : ChainEnv) (b : Block) :
    (none ∈ validateBodyOutcomes env b ↔
      env.calcUncleHash b.uncles = b.header.uncleHash ∧
      env.deriveSha b.transactions = b.header.txHash ∧
      env.hasBlockAndState b.header.parentHash (parentNumber b) = true ∧
      env.verifyUncles b = none ∧
      env.hasBlockAndState (env.blockHash b) b.header.number = false) ∧
    (∀ e : VError, some e ∈ validateBodyOutcomes env b → bodyErrCause env b e) :=
  ⟨validateBody_none_iff env b, fun e he => validateBody_some_cause env b e he⟩

/-- A concrete block used to evaluate the validator embedding. -/
def sampleHeader : Header :=
  { number := 1, parentHash := 100, uncleHash := 0, txHash := 0,
    receiptHash := 0, root := 0, bloom := 0, gasUsed := 0 }

/-- A concrete block with no transactions and no uncles. -/
def sampleBlock : Block :=
  { header := sampleHeader, transactions := [], uncles := [] }

/-- Chain view where the sample block is new, its parent is known with
state, both roots match and the uncles verify. -/
def envAllGood : ChainEnv :=
  { blockHash := fun _ => 1
    calcUncleHash := fun _ => 0
    deriveSha := fun _ => 0
    hasBlockAndState := fun hsh _ => hsh == 100
    hasBlock := fun hsh _ => hsh == 100
    verifyUncles := fun _ => none }

/-- Witness for C1: on a chain view satisfying all five conditions,
`ValidateBody` can succeed. -/
theorem validateBody_spec_witness :
    none ∈ validateBodyOutcomes envAllGood sampleBlock :=
  (validateBody_spec envAllGood sampleBlock).1.mpr
    ⟨rfl, rfl, by decide, rfl, by decide⟩

/-- Chain view where the sample block itself is already known with state
while its parent (hash 100) is known without state. -/
def envKnownBlock : ChainEnv :=
  { blockHash := fun _ => 7
    calcUncleHash := fun _ => 0
    deriveSha := fun _ => 0
    hasBlockAndState := fun hsh _ => hsh == 7
    hasBlock := fun hsh _ => hsh == 7 || hsh == 100
    verifyUncles := fun _ => none }

/-- Claim C6 counterexample: a block whose parent is known without state
but which is itself already known with state — `ValidateBody` cannot
return `PrunedAncestor` here; the known-block short-circuit makes
`ErrKnownBlock` the only possible result. -/
theorem validateBody_ancestor_counterexample :
    envKnownBlock.hasBlock sampleBlock.header.parentHash (parentNumber sampleBlock) = true ∧
    envKnownBlock.hasBlockAndState sampleBlock.header.parentHash (parentNumber sampleBlock) = false ∧
    some VError.prunedAncestor ∉ validateBodyOutcomes envKnownBlock sampleBlock ∧
    validateBodyOutcomes envKnownBlock sampleBlock = [some VError.knownBlock] :=
  ⟨by decide, by decide, by decide, by decide⟩

/-- Claim C6 (amended): over a consistent chain view (state implies block),
the ancestor check returns `PrunedAncestor` exactly when the parent is
known without state and `UnknownAncestor` exactly when the parent is
entirely unknown; at the `ValidateBody` level the two errors are never
interchanged, and when no sequential pre-check fires the corresponding
ancestor error is a possible result. -/
theorem validateBody_ancestor_errors (env : ChainEnv) (b : Block)
    (hcons : ∀ hsh n, env.hasBlockAndState hsh n = true → env.hasBlock hsh n = true) :
    (bodyCheckAncestor env b = some VError.prunedAncestor ↔
      env.hasBlock b.header.parentHash (parentNumber b) = true ∧
      env.hasBlockAndState b.header.parentHash (parentNumber b) = false) ∧
    (bodyCheckAncestor env b = some VError.unknownAncestor ↔
      env.hasBlock b.header.parentHash (parentNumber b) = false) ∧
    (some VError.prunedAncestor ∈ validateBodyOutcomes env b →
      env.hasBlock b.header.parentHash (parentNumber b) = true ∧
      env.hasBlockAndState b.header.parentHash (parentNumber b) = false) ∧
    (some VError.unknownAncestor ∈ validateBodyOutcomes env b →
      env.hasBlock b.header.parentHash (parentNumber b) = false) ∧
    (bodyPreCheck env b = none →
      env.hasBlock b.header.parentHash (parentNumber b) = true →
      env.hasBlockAndState b.header.parentHash (parentNumber b) = false →
      some VError.prunedAncestor ∈ validateBodyOutcomes env b) ∧
    (bodyPreCheck env b = none →
      env.hasBlock b.header.parentHash (parentNumber b) = false →
      some VError.unknownAncestor ∈ validateBodyOutcomes env b) := by
  have hanc_pruned : ∀ hpb : env.hasBlock b.header.parentHash (parentNumber b) = true,
      ∀ hps : env.hasBlockAndState b.header.parentHash (parentNumber b) = false,
      bodyCheckAncestor env b = some VError.prunedAncestor := by
    intro hpb hps
    unfold bodyCheckAncestor
    rw [if_pos (by simp [hps]), if_neg (by simp [hpb])]
  have hanc_unknown : ∀ hpb : env.hasBlock b.header.parentHash (parentNumber b) = false,
      bodyCheckAncestor env b = some VError.unknownAncestor := by
    intro hpb
    have hps : env.hasBlockAndState b.header.parentHash (parentNumber b) = false := by
      by_cases hx : env.hasBlockAndState b.header.parentHash (parentNumber b) = true
      · rw [hcons _ _ hx] at hpb
        exact Bool.noConfusion hpb
      · exact Bool.not_eq_true _ ▸ Bool.eq_false_iff.mpr (fun hy => hx hy)
    unfold bodyCheckAncestor
    rw [if_pos (by simp [hps]), if_pos (by simp [hpb])]
  refine ⟨?_, ?_, ?_, ?_, ?_, ?_⟩
  · constructor
    · intro h
      have hc := bodyCheckAncestor_cause env b _ h
      exact hc
    · rintro ⟨hpb, hps⟩
      exact hanc_pruned hpb hps
  · constructor
    · intro h
      exact (bodyCheckAncestor_cause env b _ h).1
    · intro hpb
      exact hanc_unknown hpb
  · intro h
    exact validateBody_some_cause env b _ h
  · intro h
    exact (validateBody_some_cause env b _ h).1
  · intro hpre hpb hps
    rw [validateBodyOutcomes, some_mem_raceOutcomes]
    refine Or.inr ⟨hpre, ?_⟩
    rw [← hanc_pruned hpb hps]
    simp [bodyTasks]
  · intro hpre hpb
    rw [validateBodyOutcomes, some_mem_raceOutcomes]
    refine Or.inr ⟨hpre, ?_⟩
    rw [← hanc_unknown hpb]
    simp [bodyTasks]

/-- Chain view where nothing is known: the sample block is new and its
parent is entirely unknown. -/
def envNoParent : ChainEnv :=
  { blockHash := fun _ => 1
    calcUncleHash := fun _ => 0
    deriveSha := fun _ => 0
    hasBlockAndState := fun _ _ => false
    hasBlock := fun _ _ => false
    verifyUncles := fun _ => none }

/-- Witness for C6 (amended): a completely unknown parent can yield
`UnknownAncestor`. -/
theorem validateBody_ancestor_errors_witness :
    some VError.unknownAncestor ∈ validateBodyOutcomes envNoParent sampleBlock :=
  (validateBody_ancestor_errors envNoParent sampleBlock
    (fun _ _ hh => absurd hh (by simp [envNoParent]))).2.2.2.2.2 (by decide) (by decide)

/-- Chain view where the sample block is already known with state and uncle
verification fails. -/
def envKnownUncleFail : ChainEnv :=
  { blockHash := fun _ => 7
    calcUncleHash := fun _ => 0
    deriveSha := fun _ => 0
    hasBlockAndState := fun hsh _ => hsh == 7
    hasBlock := fun hsh _ => hsh == 7
    verifyUncles := fun _ => some 3 }

/-- Claim C10 counterexample: a block that fails uncle verification but is
already known with state deterministically returns `ErrKnownBlock`, not the
engine error, because the known-block short-circuit is evaluated first. -/
theorem validateBody_order_counterexample :
    envKnownUncleFail.verifyUncles sampleBlock = some 3 ∧
    some (VError.engineError 3) ∉ validateBodyOutcomes envKnownUncleFail sampleBlock ∧
    validateBodyOutcomes envKnownUncleFail sampleBlock = [some VError.knownBlock] :=
  ⟨by decide, by decide, by decide⟩

/-- Claim C10 (amended): for a block that is not already known with state,
the engine uncle verification and the uncle-root comparison run
sequentially before any concurrent task is dispatched, so their failures
are deterministic: the outcome set is exactly that single error even when
the transaction root also mismatches or the ancestor is missing; the
documented race is only among the known-block, transaction-root and
ancestor checks. -/
theorem validateBody_sequential_precheck (env : ChainEnv) (b : Block)
    (hk : env.hasBlockAndState (env.blockHash b) b.header.number = false) :
    (∀ e, env.verifyUncles b = some e →
      validateBodyOutcomes env b = [some (VError.engineError e)]) ∧
    (env.verifyUncles b = none →
      env.calcUncleHash b.uncles ≠ b.header.uncleHash →
      validateBodyOutcomes env b =
        [some (VError.uncleRootMismatch (env.calcUncleHash b.uncles) b.header.uncleHash)]) := by
  constructor
  · intro e hvu
    have hpre : bodyPreCheck env b = some (VError.engineError e) := by
      unfold bodyPreCheck
      rw [if_neg (by simp [hk]), hvu]
    rw [validateBodyOutcomes, hpre]
    rfl
  · intro hvu huh
    have hpre : bodyPreCheck env b =
        some (VError.uncleRootMismatch (env.calcUncleHash b.uncles) b.header.uncleHash) := by
      unfold bodyPreCheck
      rw [if_neg (by simp [hk]), hvu, if_pos (by simpa using huh)]
    rw [validateBodyOutcomes, hpre]
    rfl

/-- Chain view where uncle verification fails while the transaction root
also mismatches and the ancestor is missing entirely. -/
def envUncleFailOnly : ChainEnv :=
  { blockHash := fun _ => 1
    calcUncleHash := fun _ => 0
    deriveSha := fun _ => 99
    hasBlockAndState := fun _ _ => false
    hasBlock := fun _ _ => false
    verifyUncles := fun _ => some 3 }

/-- Witness for C10 (amended): despite a transaction-root mismatch and a
missing ancestor, a failing uncle verification is the deterministic,
unique result for a not-known block. -/
theorem validateBody_sequential_precheck_witness :
    validateBodyOutcomes envUncleFailOnly sampleBlock = [some (VError.engineError 3)] :=
  (validateBody_sequential_precheck envUncleFailOnly sampleBlock (by decide)).1 3 (by decide)

/-! ## Post-execution validation (`ValidateState` in core/block_validator.go) -/

/-- The errors `ValidateState` can return (remote = declared header value,
loc = locally recomputed value). -/
inductive SError where
  | gasUsedMismatch (remote loc : Nat)
  | bloomMismatch (remote loc : Nat)
  | receiptRootMismatch (remote loc : Nat)
  | stateRootMismatch (remote loc : Nat)
deriving DecidableEq

/-- The collaborators `ValidateState` consumes: bloom creation, receipt-root
derivation (receipts abstracted to their identities), and the chain config's
EIP158 fork predicate on the block number. The post-state database is
modelled separately by its `IntermediateRoot` function on the fork flag. -/
structure StateEnv where
  createBloom : List Nat → Nat
  deriveShaReceipts : List Nat → Nat
  isEIP158 : Nat → Bool

/-- The synchronous gas-used comparison that precedes the goroutines. -/
def statePreCheck (b : Block) (usedGas : Nat) : Option SError :=
  if b.header.gasUsed ≠ usedGas then some (.gasUsedMismatch b.header.gasUsed usedGas)
  else none

/-- First concurrent task: the bloom comparison. -/
def stateCheckBloom (env : StateEnv) (b : Block) (receipts : List Nat) : Option SError :=
  if env.createBloom receipts ≠ b.header.bloom then
    some (.bloomMismatch b.header.bloom (env.createBloom receipts))
  else none

/-- Second concurrent task: the receipt-root comparison. -/
def stateCheckReceipt (env : StateEnv) (b : Block) (receipts : List Nat) : Option SError :=
  if env.deriveShaReceipts receipts ≠ b.header.receiptHash then
    some (.receiptRootMismatch b.header.receiptHash (env.deriveShaReceipts receipts))
  else none

/-- Third concurrent task: the state-root comparison against
`statedb.IntermediateRoot(config.IsEIP158(header.Number))`. -/
def stateCheckRoot (env : StateEnv) (stRoot : Bool → Nat) (b : Block) : Option SError :=
  if b.header.root ≠ stRoot (env.isEIP158 b.header.number) then
    some (.stateRootMismatch b.header.root (stRoot (env.isEIP158 b.header.number)))
  else none

/-- The `validateFuns` slice of `ValidateState`. -/
def stateTasks (env : StateEnv) (stRoot : Bool → Nat) (b : Block) (receipts : List Nat) :
    List (Option SError) :=
  [stateCheckBloom env b receipts, stateCheckReceipt env b receipts,
   stateCheckRoot env stRoot b]

/-- The possible results of `ValidateState` (`none` = success). -/
def validateStateOutcomes (env : StateEnv) (stRoot : Bool → Nat) (b : Block)
    (receipts : List Nat) (usedGas : Nat) : List (Option SError) :=
  raceOutcomes (statePreCheck b usedGas) (stateTasks env stRoot b receipts)

theorem statePreCheck_eq_none (b : Block) (usedGas : Nat) :
    statePreCheck b usedGas = none ↔ b.header.gasUsed = usedGas := by
  unfold statePreCheck
  by_cases hg : b.header.gasUsed = usedGas <;> simp [hg]

theorem stateCheckBloom_eq_none (env : StateEnv) (b : Block) (receipts : List Nat) :
    stateCheckBloom env b receipts = none ↔ env.createBloom receipts = b.header.bloom := by
  unfold stateCheckBloom
  by_cases hb : env.createBloom receipts = b.header.bloom <;> simp [hb]

theorem stateCheckReceipt_eq_none (env : StateEnv) (b : Block) (receipts : List Nat) :
    stateCheckReceipt env b receipts = none ↔
      env.deriveShaReceipts receipts = b.header.receiptHash := by
  unfold stateCheckReceipt
  by_cases hr : env.deriveShaReceipts receipts = b.header.receiptHash <;> simp [hr]

theorem stateCheckRoot_eq_none (env : StateEnv) (stRoot : Bool → Nat) (b : Block) :
    stateCheckRoot env stRoot b = none ↔
      b.header.root = stRoot (env.isEIP158 b.header.number) := by
  unfold stateCheckRoot
  by_cases hs : b.header.root = stRoot (env.isEIP158 b.header.number) <;> simp [hs]

/-- Claim C3: `ValidateState` succeeds exactly when declared gas-used,
bloom, receipt root and state root all match the recomputed values; and
when exactly one of the four fields is corrupted, the call returns exactly
the error of that field — deterministically, never a different one. -/
theorem validateState_spec (env : StateEnv) (stRoot : Bool → Nat) (b : Block)
    (receipts : List Nat) (usedGas : Nat) :
    (none ∈ validateStateOutcomes env stRoot b receipts usedGas ↔
      b.header.gasUsed = usedGas ∧
      env.createBloom receipts = b.header.bloom ∧
      env.deriveShaReceipts receipts = b.header.receiptHash ∧
      b.header.root = stRoot (env.isEIP158 b.header.number)) ∧
    (b.header.gasUsed ≠ usedGas →
      validateStateOutcomes env stRoot b receipts usedGas =
        [some (.gasUsedMismatch b.header.gasUsed usedGas)]) ∧
    (b.header.gasUsed = usedGas →
      env.createBloom receipts ≠ b.header.bloom →
      env.deriveShaReceipts receipts = b.header.receiptHash →
      b.header.root = stRoot (env.isEIP158 b.header.number) →
      validateStateOutcomes env stRoot b receipts usedGas =
        [some (.bloomMismatch b.header.bloom (env.createBloom receipts))]) ∧
    (b.header.gasUsed = usedGas →
      env.createBloom receipts = b.header.bloom →
      env.deriveShaReceipts receipts ≠ b.header.receiptHash →
      b.header.root = stRoot (env.isEIP158 b.header.number) →
      validateStateOutcomes env stRoot b receipts usedGas =
        [some (.receiptRootMismatch b.header.receiptHash (env.deriveShaReceipts receipts))]) ∧
    (b.header.gasUsed = usedGas →
      env.createBloom receipts = b.header.bloom →
      env.deriveShaReceipts receipts = b.header.receiptHash →
      b.header.root ≠ stRoot (env.isEIP158 b.header.number) →
      validateStateOutcomes env stRoot b receipts usedGas =
        [some (.stateRootMismatch b.header.root (stRoot (env.isEIP158 b.header.number)))]) := by
  refine ⟨?_, ?_, ?_, ?_, ?_⟩
  · rw [validateStateOutcomes, none_mem_raceOutcomes, statePreCheck_eq_none]
    constructor
    · rintro ⟨hg, hall⟩
      refine ⟨hg, ?_, ?_, ?_⟩
      · exact (stateCheckBloom_eq_none env b receipts).mp (hall _ (by simp [stateTasks]))
      · exact (stateCheckReceipt_eq_none env b receipts).mp (hall _ (by simp [stateTasks]))
      · exact (stateCheckRoot_eq_none env stRoot b).mp (hall _ (by simp [stateTasks]))
    · rintro ⟨hg, hb, hr, hs⟩
      refine ⟨hg, ?_⟩
      intro r hr2
      simp only [stateTasks, List.mem_cons, List.not_mem_nil, or_false] at hr2
      rcases hr2 with rfl | rfl | rfl
      · exact (stateCheckBloom_eq_none env b receipts).mpr hb
      · exact (stateCheckReceipt_eq_none env b receipts).mpr hr
      · exact (stateCheckRoot_eq_none env stRoot b).mpr hs
  · intro hg
    have hpre : statePreCheck b usedGas = some (.gasUsedMismatch b.header.gasUsed usedGas) := by
      unfold statePreCheck
      rw [if_pos (by simpa using hg)]
    rw [validateStateOutcomes, hpre]
    rfl
  · intro hg hb hr hs
    have hpre : statePreCheck b usedGas = none := (statePreCheck_eq_none b usedGas).mpr hg
    have h1 : stateCheckBloom env b receipts =
        some (.bloomMismatch b.header.bloom (env.createBloom receipts)) := by
      unfold stateCheckBloom
      rw [if_pos (by simpa using hb)]
    have h2 : stateCheckReceipt env b receipts = none :=
      (stateCheckReceipt_eq_none env b receipts).mpr hr
    have h3 : stateCheckRoot env stRoot b = none :=
      (stateCheckRoot_eq_none env stRoot b).mpr hs
    rw [validateStateOutcomes, hpre, raceOutcomes, stateTasks, h1, h2, h3]
    rfl
  · intro hg hb hr hs
    have hpre : statePreCheck b usedGas = none := (statePreCheck_eq_none b usedGas).mpr hg
    have h1 : stateCheckBloom env b receipts = none :=
      (stateCheckBloom_eq_none env b receipts).mpr hb
    have h2 : stateCheckReceipt env b receipts =
        some (.receiptRootMismatch b.header.receiptHash (env.deriveShaReceipts receipts)) := by
      unfold stateCheckReceipt
      rw [if_pos (by simpa using hr)]
    have h3 : stateCheckRoot env stRoot b = none :=
      (stateCheckRoot_eq_none env stRoot b).mpr hs
    rw [validateStateOutcomes, hpre, raceOutcomes, stateTasks, h1, h2, h3]
    rfl
  · intro hg hb hr hs
    have hpre : statePreCheck b usedGas = none := (statePreCheck_eq_none b usedGas).mpr hg
    have h1 : stateCheckBloom env b receipts = none :=
      (stateCheckBloom_eq_none env b receipts).mpr hb
    have h2 : stateCheckReceipt env b receipts = none :=
      (stateCheckReceipt_eq_none env b receipts).mpr hr
    have h3 : stateCheckRoot env stRoot b =
        some (.stateRootMismatch b.header.root (stRoot (env.isEIP158 b.header.number))) := by
      unfold stateCheckRoot
      rw [if_pos (by simpa using hs)]
    rw [validateStateOutcomes, hpre, raceOutcomes, stateTasks, h1, h2, h3]
    rfl

/-- A post-state whose intermediate root is 0 under either fork flag. -/
def sampleRoot : Bool → Nat := fun _ => 0

/-- State collaborators under which the sample block's bloom is corrupted
and everything else matches. -/
def stateEnvBloomBad : StateEnv :=
  { createBloom := fun _ => 5
    deriveShaReceipts := fun _ => 0
    isEIP158 := fun _ => true }

/-- Witness for C3: with only the bloom corrupted, the bloom-mismatch error
is the unique possible result. -/
theorem validateState_spec_witness :
    validateStateOutcomes stateEnvBloomBad sampleRoot sampleBlock [] 0 =
      [some (SError.bloomMismatch 0 5)] :=
  (validateState_spec stateEnvBloomBad sampleRoot sampleBlock [] 0).2.2.1
    rfl (by decide) rfl rfl

/-! ## Remote-work API (`consensus/inihash/api.go`)

Each API call is a fixed sequence of channel interactions. The scheduler's
choices — which select case fires, and what the dispatch loop replies — are
explicit arguments, so a theorem quantifying over them covers every
interleaving the source allows. The first select of every call offers the
request send and the exit channel; the source's reply wait offers only the
loop's reply channels, which the embedding transcribes faithfully. -/

/-- The five-string work package `GetWork` returns. -/
structure WorkPackage where
  powHash : String
  seedHash : String
  target : String
  blockNumber : String
  algo : String
deriving DecidableEq

/-- Which case of the request-sending select fires. -/
inductive SendOutcome where
  | accepted
  | stopped
deriving DecidableEq

/-- What the dispatch loop delivers on the reply channels of `GetWork`:
the work package on `workCh`, or an opaque error on `errc`. -/
inductive WorkReply where
  | work (w : WorkPackage)
  | fail (e : Nat)
deriving DecidableEq

/-- The observable results of `GetWork`. -/
inductive GetWorkResult where
  | pkg (w : WorkPackage)
  | unsupported
  | engineStopped
  | loopError (e : Nat)
deriving DecidableEq

/-- Is the result a work package? -/
def GetWorkResult.isPkg : GetWorkResult → Bool
  | .pkg _ => true
  | _ => false

/-- Is the result an error forwarded from the dispatch loop's `errc`? -/
def GetWorkResult.isLoopError : GetWorkResult → Bool
  | .loopError _ => true
  | _ => false

/-- `API.GetWork` from api.go: the nil-remote guard, then the send select
racing `exitCh`, then the reply select over `workCh` and `errc` (which does
not offer `exitCh`). The second component records whether a request was
dispatched to the loop. -/
def GetWork (remoteNil : Bool) (send : SendOutcome) (reply : WorkReply) :
    GetWorkResult × Bool :=
  if remoteNil then (.unsupported, false)
  else
    match send with
    | .stopped => (.engineStopped, false)
    | .accepted =>
      match reply with
      | .work w => (.pkg w, true)
      | .fail e => (.loopError e, true)

/-- Claim C8 counterexample: when the request is accepted and the loop
replies on `errc`, `GetWork` returns the forwarded loop error — an outcome
that is neither a work package, nor `Unsupported`, nor `EngineStopped`. -/
theorem getWork_counterexample :
    (GetWork false .accepted (.fail 7)).1 = .loopError 7 ∧
    (GetWork false .accepted (.fail 7)).1.isPkg = false ∧
    (GetWork false .accepted (.fail 7)).1 ≠ .unsupported ∧
    (GetWork false .accepted (.fail 7)).1 ≠ .engineStopped :=
  ⟨by decide, by decide, by decide, by decide⟩

/-- Claim C8 (amended): `GetWork` returns a work-package snapshot, or
`Unsupported` exactly when remote mining is disabled (and then without
dispatching any request), or `EngineStopped` exactly when the shutdown
signal wins the send select, or an error forwarded from the dispatch
loop's reply channel; no other outcome is possible. -/
theorem getWork_outcomes (remoteNil : Bool) (send : SendOutcome) (reply : WorkReply) :
    ((GetWork remoteNil send reply).1 = .unsupported ↔ remoteNil = true) ∧
    (remoteNil = true → (GetWork remoteNil send reply).2 = false) ∧
    ((GetWork remoteNil send reply).1 = .engineStopped ↔
      remoteNil = false ∧ send = .stopped) ∧
    ((GetWork remoteNil send reply).1.isPkg = true ∨
     (GetWork remoteNil send reply).1 = .unsupported ∨
     (GetWork remoteNil send reply).1 = .engineStopped ∨
     (GetWork remoteNil send reply).1.isLoopError = true) := by
  cases remoteNil <;> cases send <;> cases reply <;>
    simp [GetWork, GetWorkResult.isPkg, GetWorkResult.isLoopError]

/-- Witness for C8 (amended): a disabled remote mode yields `Unsupported`
without dispatching. -/
theorem getWork_outcomes_witness :
    (GetWork true .accepted (.fail 0)).2 = false :=
  (getWork_outcomes true .accepted (.fail 0)).2.1 rfl

/-- The events a blocked remote-work call can observe. -/
inductive RemoteEv where
  | reqDelivered
  | replyDelivered
  | shutdownSignal
deriving DecidableEq

/-- The control state of a `SubmitHashrate` call. -/
inductive SubmitHashrateState where
  | start
  | awaitingReply
  | finished (result : Bool)
deriving DecidableEq

/-- Is the call finished? -/
def SubmitHashrateState.isFinished : SubmitHashrateState → Bool
  | .finished _ => true
  | _ => false

/-- One step of `SubmitHashrate` from api.go: the first select offers the
request send and `exitCh`; after acceptance the call does `<-done`, a plain
receive that offers only the loop's reply — transcribed exactly, so no
event other than the reply can move the call out of `awaitingReply`. -/
def submitHashrateStep : SubmitHashrateState → RemoteEv → Option SubmitHashrateState
  | .start, .reqDelivered => some .awaitingReply
  | .start, .shutdownSignal => some (.finished false)
  | .awaitingReply, .replyDelivered => some (.finished true)
  | _, _ => none

/-- Run a `SubmitHashrate` call over a sequence of events, ignoring events
that do not unblock the current state. -/
def submitHashrateRun (s : SubmitHashrateState) : List RemoteEv → SubmitHashrateState
  | [] => s
  | ev :: evs =>
    match submitHashrateStep s ev with
    | some t => submitHashrateRun t evs
    | none => submitHashrateRun s evs

/-- `API.SubmitHashrate` including the nil-remote guard. -/
def submitHashrate (remoteNil : Bool) (evs : List RemoteEv) : SubmitHashrateState :=
  if remoteNil then .finished false else submitHashrateRun .start evs

/-- Claim C5 counterexample: a `SubmitHashrate` call whose request was
accepted and which then observes only shutdown signals stays blocked
forever — the awaiting of the reply does not race the shutdown signal, so
an in-flight call can hang after shutdown. -/
theorem submitHashrate_counterexample :
    submitHashrate false
      (.reqDelivered :: List.replicate 5 .shutdownSignal) = .awaitingReply ∧
    (submitHashrate false
      (.reqDelivered :: List.replicate 5 .shutdownSignal)).isFinished = false :=
  ⟨by decide, by decide⟩

/-- Claim C5 (amended): only the sending of the request races against the
shutdown signal — before acceptance, shutdown terminates the call with
`false`, and the nil-remote guard returns `false` immediately; after
acceptance the call completes only on the loop's reply (then returning
`true`), and any number of shutdown signals leaves it blocked. -/
theorem submitHashrate_blocking (n : Nat) (evs : List RemoteEv) :
    submitHashrateStep .start .shutdownSignal = some (.finished false) ∧
    submitHashrateStep .start .reqDelivered = some .awaitingReply ∧
    submitHashrateStep .awaitingReply .replyDelivered = some (.finished true) ∧
    submitHashrateStep .awaitingReply .shutdownSignal = none ∧
    submitHashrateRun .awaitingReply (List.replicate n .shutdownSignal) = .awaitingReply ∧
    submitHashrate true evs = .finished false := by
  refine ⟨rfl, rfl, rfl, rfl, ?_, rfl⟩
  induction n with
  | zero => rfl
  | succ m ih =>
    rw [List.replicate_succ]
    exact ih

/-- Witness is not required (no hypotheses), but the blocked run is also
directly computable; kept as the amended theorem's concrete instance. -/
theorem submitHashrate_blocking_witness :
    submitHashrateRun .awaitingReply (List.replicate 3 .shutdownSignal) = .awaitingReply :=
  (submitHashrate_blocking 3 []).2.2.2.2.1

end PureChain
